import Mathlib

/-!
A shallow embedding of the subscription / entitlement logic of `src/app.py`
(a Telegram astrology-forecast bot).  Python datetimes are modelled as a
calendar-day ordinal (rata die, proleptic Gregorian) together with a
time-of-day component, ordered lexicographically; I/O handlers are modelled
as pure state transformers on the per-user record, returning the updated
record, the number of calls made to the external text generator, and the
forecast text delivered (if any).  The external generator itself is passed
in as a function `gen : String → String → String` (name, birth ↦ text).
-/

/-- A Python `datetime` value: `day` is the proleptic-Gregorian day ordinal
of the calendar date, `tod` the time of day in sub-day units (its exact
unit is irrelevant; only the ordering matters).  `datetime` comparison is
lexicographic in (date, time-of-day). -/
structure PyDateTime where
  day : Int
  tod : Nat
deriving Repr, DecidableEq

/-- Strict `datetime` comparison `a < b` (lexicographic). -/
def dtLt (a b : PyDateTime) : Bool :=
  a.day < b.day || (a.day == b.day && a.tod < b.tod)

/-- Non-strict `datetime` comparison `a <= b` (lexicographic). -/
def dtLe (a b : PyDateTime) : Bool :=
  a.day < b.day || (a.day == b.day && a.tod ≤ b.tod)

/-- Python `dt + timedelta(days = n)`. -/
def addDays (a : PyDateTime) (n : Int) : PyDateTime := ⟨a.day + n, a.tod⟩

/-- Python `(e - now).days`: the `days` field of a `timedelta` is the floor
of the difference measured in whole days. -/
def tdDays (e now : PyDateTime) : Int :=
  if now.tod ≤ e.tod then e.day - now.day else e.day - now.day - 1

/-- Python whitespace characters stripped by `str.strip()` / `int()`. -/
def isPySpace (c : Char) : Bool :=
  c == ' ' || c == '\t' || c == '\n' || c == '\r' || c == '\x0b' || c == '\x0c'

/-- Drop leading Python whitespace from a character list. -/
def dropSpaces : List Char → List Char
  | [] => []
  | c :: r => if isPySpace c then dropSpaces r else c :: r

/-- Python `str.strip()` on a character list: whitespace removed from both
ends. -/
def pyTrim (l : List Char) : List Char :=
  dropSpaces ((dropSpaces l.reverse).reverse)

/-- Python `str.split(sep)` for a one-character separator, on character
lists (structural, so it evaluates in the kernel); like Python, splitting
the empty string yields one empty field. -/
def splitOnChar (sep : Char) : List Char → List (List Char)
  | [] => [[]]
  | c :: rest =>
    if c == sep then [] :: splitOnChar sep rest
    else
      match splitOnChar sep rest with
      | h :: t => (c :: h) :: t
      | [] => [[c]]

/-- Digits-only conversion of a list of characters to a number: `none`
unless the list is non-empty and all decimal digits. -/
def digitsToNat (l : List Char) : Option Nat :=
  if l.isEmpty then none
  else if l.all Char.isDigit then
    some (l.foldl (fun a c => a * 10 + (c.toNat - 48)) 0)
  else none

/-- Python `int(s)`: strips surrounding whitespace, accepts an optional
single sign, then decimal digits; raises (here: `none`) otherwise. -/
def pyIntL (l : List Char) : Option Int :=
  match pyTrim l with
  | '-' :: rest => (digitsToNat rest).map (fun n => -(n : Int))
  | '+' :: rest => (digitsToNat rest).map (fun n => (n : Int))
  | t => (digitsToNat t).map (fun n => (n : Int))

/-- Worker for Python `str.replace(pat, rep)` with a non-empty pattern:
scans left to right, replacing each non-overlapping occurrence; `fuel`
bounds the recursion (one unit per consumed character suffices). -/
def replaceAllAux (pat rep : List Char) : Nat → List Char → List Char
  | 0, l => l
  | _ + 1, [] => []
  | fuel + 1, c :: rest =>
    if pat.isPrefixOf (c :: rest) then
      rep ++ replaceAllAux pat rep fuel (List.drop (pat.length - 1) rest)
    else c :: replaceAllAux pat rep fuel rest

/-- Python `s.replace(pat, rep)` for a non-empty pattern. -/
def pyReplace (s pat rep : String) : String :=
  ⟨replaceAllAux pat.data rep.data s.data.length s.data⟩

/-- Python `str.capitalize()` on a character list: first character
upper-cased, remainder lower-cased (case mapping is the ASCII one of
`Char.toUpper`; the claims never inspect the case of a name). -/
def pyCapitalizeL : List Char → List Char
  | [] => []
  | c :: rest => c.toUpper :: rest.map Char.toLower

/-- Python `s.startswith("/")`. -/
def startsWithSlash (s : String) : Bool :=
  match s.data with
  | '/' :: _ => true
  | _ => false

/-- Rendering of an optional string inside a Python f-string: `None`
prints as the four characters `None`. -/
def pyStr : Option String → String
  | some s => s
  | none => "None"

/-- Gregorian leap-year test, as used by Python `datetime`. -/
def isLeap (y : Int) : Bool :=
  y % 4 == 0 && (y % 100 != 0 || y % 400 == 0)

/-- Length of month `m` in year `y`. -/
def daysInMonth (y m : Int) : Int :=
  if m == 2 then (if isLeap y then 29 else 28)
  else if m == 4 || m == 6 || m == 9 || m == 11 then 30
  else 31

/-- Constructor validity of Python `datetime(day := d, month := m, year := y)`:
the constructor raises unless `1 ≤ y ≤ 9999`, `1 ≤ m ≤ 12` and
`1 ≤ d ≤ daysInMonth y m`. -/
def validYMD (y m d : Int) : Bool :=
  1 ≤ y && y ≤ 9999 && 1 ≤ m && m ≤ 12 && 1 ≤ d && d ≤ daysInMonth y m

/-- Days in year `y` that precede month `m`. -/
def daysBeforeMonth (y m : Int) : Int :=
  (if 1 < m then 31 else 0) + (if 2 < m then (if isLeap y then 29 else 28) else 0)
  + (if 3 < m then 31 else 0) + (if 4 < m then 30 else 0) + (if 5 < m then 31 else 0)
  + (if 6 < m then 30 else 0) + (if 7 < m then 31 else 0) + (if 8 < m then 31 else 0)
  + (if 9 < m then 30 else 0) + (if 10 < m then 31 else 0) + (if 11 < m then 30 else 0)

/-- Proleptic-Gregorian day ordinal (rata die) of a valid date `y-m-d`,
matching Python `date.toordinal()`. -/
def rataDie (y m d : Int) : Int :=
  365 * (y - 1) + (y - 1) / 4 - (y - 1) / 100 + (y - 1) / 400
    + daysBeforeMonth y m + d

/-- `is_valid_birth_date(birth_str)` of `src/app.py` (lines 36–52), with the
ambient `datetime.now()` passed explicitly as `now`.  The source unpacks
`d, m, y = map(int, birth_str.split("."))` (any parse or unpack failure is
caught and yields `False`), constructs `datetime(day=d, month=m, year=y)`
(constructor failure likewise yields `False`), then rejects dates in the
future (`birth_date > now`) and dates before `now - timedelta(days=365*100)`
(36500 days). -/
def is_valid_birth_date (birth_str : String) (now : PyDateTime) : Bool :=
  match (splitOnChar '.' birth_str.data).map pyIntL with
  | [some d, some m, some y] =>
    if !validYMD y m d then false
    else
      let b : PyDateTime := ⟨rataDie y m d, 0⟩
      if dtLt now b then false
      else if dtLt b ⟨now.day - 36500, now.tod⟩ then false
      else true
  | _ => false

/-- The per-user record of the `users` ledger of `src/app.py`.  Keys absent
from the Python dict are modelled by the field defaults (`""` / `false` /
`none`); `expires`, `first_payment` store full datetimes, and
`last_forecast_date` stores a calendar-day ordinal (the source stores
`date().isoformat()` strings, whose equality coincides with day equality). -/
structure UserRec where
  name : String := ""
  birth : String := ""
  trial_used : Bool := false
  paid : Bool := false
  expires : Option PyDateTime := none
  first_payment : Option PyDateTime := none
  last_forecast_date : Option Int := none
  cached_forecast : Option String := none
deriving Repr, DecidableEq

/-- `get_zodiac(birth)` of `src/app.py` (lines 110–126).  The source unpacks
`d, m, *_ = map(int, birth.split("."))`; any parse/unpack failure is caught
and returns the sentinel string.  When the parse succeeds but no range
condition matches (month outside 1..12), the Python function falls off the
end and implicitly returns `None`, modelled here as `none`. -/
def get_zodiac (birth : String) : Option String :=
  match (splitOnChar '.' birth.data).mapM pyIntL with
  | some (d :: m :: _) =>
    if (m == 3 && 21 ≤ d) || (m == 4 && d ≤ 19) then some "Овен"
    else if (m == 4 && 20 ≤ d) || (m == 5 && d ≤ 20) then some "Телец"
    else if (m == 5 && 21 ≤ d) || (m == 6 && d ≤ 20) then some "Близнецы"
    else if (m == 6 && 21 ≤ d) || (m == 7 && d ≤ 22) then some "Рак"
    else if (m == 7 && 23 ≤ d) || (m == 8 && d ≤ 22) then some "Лев"
    else if (m == 8 && 23 ≤ d) || (m == 9 && d ≤ 22) then some "Дева"
    else if (m == 9 && 23 ≤ d) || (m == 10 && d ≤ 22) then some "Весы"
    else if (m == 10 && 23 ≤ d) || (m == 11 && d ≤ 21) then some "Скорпион"
    else if (m == 11 && 22 ≤ d) || (m == 12 && d ≤ 21) then some "Стрелец"
    else if (m == 12 && 22 ≤ d) || (m == 1 && d ≤ 19) then some "Козерог"
    else if (m == 1 && 20 ≤ d) || (m == 2 && d ≤ 18) then some "Водолей"
    else if (m == 2 && 19 ≤ d) || (m == 3 && d ≤ 20) then some "Рыбы"
    else none
  | _ => some "Неизвестен"

/-- `generate_forecast(name, birth)` of `src/app.py` (lines 129–150), with
the outcome of the external HTTP call passed explicitly: `some content`
stands for a successful call from which `content` was extracted (the source
then applies `.strip()`), `none` for any failure (network error, timeout,
malformed response), on which the `except` branch returns the fallback
f-string `"{name}, сегодня для {zodiac} благоприятная энергия..."`. -/
def generate_forecast (name birth : String) (api_response : Option String) : String :=
  match api_response with
  | some content => ⟨pyTrim content.data⟩
  | none => name ++ ", сегодня для " ++ pyStr (get_zodiac birth) ++ " благоприятная энергия..."

/-- Python truthiness of `user_data.get("cached_forecast")`: falsy when the
key is absent (`None`) and also when the stored string is empty. -/
def pyTruthy : Option String → Bool
  | none => false
  | some s => !(s == "")

/-- The paid-subscriber forecast flow of `src/app.py`, lines 191–226 of the
`forecast` handler; the identical block is duplicated verbatim in
`button_handler` (lines 247–284) and in the paid branch of `save_user`
(lines 311–347).  If `datetime.now() >= expires` the handler clears the
`paid` flag, saves, and sends no forecast; otherwise, when
`last_forecast_date` equals today, it tests `if cached:` — Python
truthiness, so an absent OR EMPTY cached text triggers regeneration (which
rewrites only `cached_forecast`) — and serves the cached text only when it
is a non-empty string; on a stale or absent date it regenerates and writes
both cache fields.  A paid record that lacks the `expires` key would raise
`KeyError` before any write, leaving the record unchanged and nothing
sent, which is what the `none` branch returns. -/
def paid_flow (gen : String → String → String) (u : UserRec) (now : PyDateTime) :
    UserRec × Nat × Option String :=
  match u.expires with
  | none => (u, 0, none)
  | some e =>
    if dtLe e now then ({u with paid := false}, 0, none)
    else
      let today := now.day
      if u.last_forecast_date == some today then
        if pyTruthy u.cached_forecast then (u, 0, u.cached_forecast)
        else
          let t := gen u.name u.birth
          ({u with cached_forecast := some t}, 1, some t)
      else
        let t := gen u.name u.birth
        ({u with last_forecast_date := some today, cached_forecast := some t}, 1, some t)

/-- The `/forecast` command handler of `src/app.py` (lines 179–229), as a
pure transformer of the user's ledger entry.  Result: (new ledger entry,
number of generator invocations, forecast text sent if any).  An absent (or
empty, hence falsy) record, an unpaid record with the trial already used,
and an unpaid record without a trial all receive a prompt and no forecast. -/
def forecast_handler (gen : String → String → String) (u0 : Option UserRec)
    (now : PyDateTime) : Option UserRec × Nat × Option String :=
  match u0 with
  | none => (none, 0, none)
  | some u =>
    if !u.paid && !u.trial_used then (some u, 0, none)
    else if u.paid then
      let r := paid_flow gen u now
      (some r.1, r.2.1, r.2.2)
    else (some u, 0, none)

/-- The per-user body of `daily_job` of `src/app.py` (lines 510–528):
`now = datetime.now().date()`; users with `paid` unset are skipped, as are
those with `expires.date() < now`; every remaining user is sent a freshly
generated forecast (`generate_forecast` is called directly — the cache is
neither consulted nor updated, and the record is not mutated).  Result:
(number of generator invocations, text sent if any). -/
def daily_job_user (gen : String → String → String) (u : UserRec)
    (now : PyDateTime) : Nat × Option String :=
  if !u.paid then (0, none)
  else
    match u.expires with
    | none => (0, none)
    | some e =>
      if e.day < now.day then (0, none)
      else (1, some (gen u.name u.birth))

/-- Whether the interactive `/forecast` path delivers a forecast to record
`u` at moment `now`. -/
def interactive_allows (gen : String → String → String) (u : UserRec)
    (now : PyDateTime) : Bool :=
  ((forecast_handler gen (some u) now).2.2).isSome

/-- Whether the daily sweep delivers a forecast to record `u` at moment
`now`. -/
def sweep_allows (gen : String → String → String) (u : UserRec)
    (now : PyDateTime) : Bool :=
  ((daily_job_user gen u now).2).isSome

/-- The free-text handler `save_user` of `src/app.py` (lines 296–397), as a
pure transformer.  Inputs: whether the contact-shared flag is set in the
conversation state, the user's ledger entry, the raw message text, and the
current datetime.  Commands (leading `/`) and messages before the contact
is shared are ignored.  An existing paid record runs the duplicated paid
forecast flow regardless of the message content; an unpaid record with the
trial already used gets a prompt only; otherwise (new user, or unpaid
record with no trial) the message is parsed as two lines name / birth
date: on fewer than two lines or an invalid birth date nothing is written,
else the record is stored with `trial_used := true` and the trial forecast
is generated and sent. -/
def save_user (gen : String → String → String) (contact_sent : Bool)
    (u0 : Option UserRec) (text : String) (now : PyDateTime) :
    Option UserRec × Nat × Option String :=
  if startsWithSlash text then (u0, 0, none)
  else if !contact_sent then (u0, 0, none)
  else
    match u0 with
    | some u =>
      if u.paid then
        let r := paid_flow gen u now
        (some r.1, r.2.1, r.2.2)
      else if u.trial_used then (some u, 0, none)
      else
        let lines := splitOnChar '\n' text.data
        if lines.length < 2 then (some u, 0, none)
        else
          let name : String := ⟨pyCapitalizeL (pyTrim (lines.getD 0 []))⟩
          let birth : String := ⟨pyTrim (lines.getD 1 [])⟩
          if !is_valid_birth_date birth now then (some u, 0, none)
          else
            let t := gen name birth
            (some {u with name := name, birth := birth, trial_used := true}, 1, some t)
    | none =>
      let lines := splitOnChar '\n' text.data
      if lines.length < 2 then (none, 0, none)
      else
        let name : String := ⟨pyCapitalizeL (pyTrim (lines.getD 0 []))⟩
        let birth : String := ⟨pyTrim (lines.getD 1 [])⟩
        if !is_valid_birth_date birth now then (none, 0, none)
        else
          let t := gen name birth
          (some { name := name, birth := birth, trial_used := true }, 1, some t)

/-- The `/rest` handler of `src/app.py` (lines 461–479), restricted to its
effect on the ledger entry: for a paid record it computes
`remaining = (expires - datetime.now()).days` and, when `remaining < 0`,
clears the `paid` flag and saves; in every other case the record is
untouched.  A paid record lacking `expires` raises before any write. -/
def rest_handler (u0 : Option UserRec) (now : PyDateTime) : Option UserRec :=
  match u0 with
  | none => none
  | some u =>
    if u.paid then
      match u.expires with
      | none => some u
      | some e =>
        if 0 ≤ tdDays e now then some u
        else some {u with paid := false}
    else some u

/-- `int(payment.invoice_payload.replace("plan_", ""))` of
`successful_payment` in `src/app.py` (line 432): every occurrence of
`plan_` is deleted and the remainder parsed as an integer; `none` models
the `ValueError` of a malformed payload. -/
def parse_days (payload : String) : Option Int :=
  pyIntL (pyReplace payload "plan_" "").data

/-- The state change of a completed payment, `src/app.py` lines 434–439:
`paid := True`, `expires := now + timedelta(days)`, and `first_payment :=
now` — each assignment unconditional, on every payment. -/
def apply_payment (u : UserRec) (days : Int) (now : PyDateTime) : UserRec :=
  { u with paid := true
         , expires := some (addDays now days)
         , first_payment := some now }

/-- The `successful_payment` handler of `src/app.py` (lines 427–446) as a
pure transformer of the user's ledger entry.  The whole body sits in a
`try/except` that only logs: if the payload fails to parse, the exception
is raised before `users.setdefault`, so the ledger is left untouched;
otherwise a (possibly fresh) record is updated by `apply_payment`. -/
def successful_payment (u0 : Option UserRec) (payload : String)
    (now : PyDateTime) : Option UserRec :=
  match parse_days payload with
  | none => u0
  | some d => some (apply_payment (u0.getD {}) d now)

/-- A constant external generator, used to instantiate `gen` in concrete
evaluations. -/
def genT : String → String → String := fun _ _ => "T"

/-- C10: for every name and birth date, when the external generator call
fails in any way the forecast falls back (without propagating the error) to
the fixed sentence containing the user's name and the rendered zodiac label
of the birth date. -/
theorem generator_failure_yields_fallback (name birth : String) :
    generate_forecast name birth none =
      name ++ ", сегодня для " ++ pyStr (get_zodiac birth) ++ " благоприятная энергия..." :=
  rfl

/-- The fallback evaluated at a concrete name and birth date: the text
contains the name and the zodiac label of 12 March. -/
theorem generator_failure_yields_fallback_example :
    generate_forecast "Анна" "12.03.1990" none =
      "Анна, сегодня для Рыбы благоприятная энергия..." := by
  decide

/-- C7: the zodiac classifier is NOT total into the twelve labels plus the
sentinel: a successfully parsed input with month 13 matches no range and
the Python function falls off the end, returning `None` (here `none`)
rather than the sentinel; the sentinel is produced only on parse failure. -/
theorem get_zodiac_month13_returns_no_label :
    get_zodiac "01.13.2000" = none ∧ get_zodiac "not-a-date" = some "Неизвестен" := by
  constructor <;> decide

/-- C1 counterexample: paying 30 days at time 0 sets the expiry to day 30;
paying 7 more days at time 3 RESETS the expiry to day 10 — strictly earlier
than the prior expiry (and not the `max(now, expiry) + days = 37` the claim
predicts), so the expiry is not monotonically non-decreasing. -/
theorem payment_shortens_window_counterexample :
    (apply_payment ({} : UserRec) 30 ⟨0, 0⟩).expires = some ⟨30, 0⟩ ∧
    (apply_payment (apply_payment ({} : UserRec) 30 ⟨0, 0⟩) 7 ⟨3, 0⟩).expires = some ⟨10, 0⟩ ∧
    dtLt ⟨10, 0⟩ ⟨30, 0⟩ = true ∧
    some (⟨10, 0⟩ : PyDateTime) ≠ some (⟨37, 0⟩ : PyDateTime) := by
  refine ⟨rfl, rfl, rfl, by decide⟩

/-- C1 amended: a completed payment sets `paid := true` and sets the expiry
to `now + days` unconditionally — it does not take the maximum with the
current expiry, so a later payment resets the window from `now` (and can
shorten it); the second payment's expiry depends only on its own time and
day count. -/
theorem payment_sets_expiry_from_now :
    (∀ (u : UserRec) (days : Int) (now : PyDateTime),
        (apply_payment u days now).paid = true ∧
        (apply_payment u days now).expires = some (addDays now days)) ∧
    (∀ (u : UserRec) (d1 : Int) (t1 : PyDateTime) (d2 : Int) (t2 : PyDateTime),
        (apply_payment (apply_payment u d1 t1) d2 t2).expires = some (addDays t2 d2)) ∧
    successful_payment none "plan_30" ⟨0, 0⟩ = some (apply_payment ({} : UserRec) 30 ⟨0, 0⟩) := by
  exact ⟨fun _ _ _ => ⟨rfl, rfl⟩, fun _ _ _ _ _ => rfl, by decide⟩

/-- C9 counterexample: the first payment at time 0 sets `first_payment` to
time 0, but a second payment at time 5 overwrites it to time 5 — the
timestamp is not write-once. -/
theorem first_payment_overwritten_counterexample :
    (apply_payment ({} : UserRec) 7 ⟨0, 0⟩).first_payment = some ⟨0, 0⟩ ∧
    (apply_payment (apply_payment ({} : UserRec) 7 ⟨0, 0⟩) 30 ⟨5, 0⟩).first_payment = some ⟨5, 0⟩ ∧
    some (⟨5, 0⟩ : PyDateTime) ≠ some (⟨0, 0⟩ : PyDateTime) := by
  refine ⟨rfl, rfl, by decide⟩

/-- C9 amended: every completed payment unconditionally writes
`first_payment := now`, so after any sequence of payments it holds the time
of the LATEST payment, not the first. -/
theorem every_payment_overwrites_first_payment :
    (∀ (u : UserRec) (days : Int) (now : PyDateTime),
        (apply_payment u days now).first_payment = some now) ∧
    (∀ (u : UserRec) (d1 : Int) (t1 : PyDateTime) (d2 : Int) (t2 : PyDateTime),
        (apply_payment (apply_payment u d1 t1) d2 t2).first_payment = some t2) :=
  ⟨fun _ _ _ => rfl, fun _ _ _ _ _ => rfl⟩

/-- C5 counterexample: on the unparsable payload `"garbage"` the payment
handler applies NO payment at all — no record is created and an existing
record keeps `paid = false` — rather than falling back to a default day
count and applying the payment with it. -/
theorem default_days_fallback_counterexample :
    successful_payment none "garbage" ⟨0, 0⟩ = none ∧
    (successful_payment (some ({} : UserRec)) "garbage" ⟨0, 0⟩).map UserRec.paid = some false := by
  constructor <;> decide

/-- C5 amended: the payment handler is defensive in that a malformed
payload does not raise (the exception is caught), but there is no default
day count: the payment is silently dropped and the ledger entry is left
exactly as it was; a well-formed payload such as `"plan_30"` parses to 30
days, while `"garbage"` fails to parse. -/
theorem malformed_payload_applies_no_payment :
    (∀ (u0 : Option UserRec) (payload : String) (now : PyDateTime),
        parse_days payload = none → successful_payment u0 payload now = u0) ∧
    parse_days "plan_30" = some 30 ∧ parse_days "garbage" = none := by
  refine ⟨?_, by decide, by decide⟩
  intro u0 payload now h
  simp [successful_payment, h]

/-- C5 witness: the first conjunct of `malformed_payload_applies_no_payment`
applied at a concrete unparsable payload and record. -/
theorem malformed_payload_applies_no_payment_witness :
    successful_payment (some { name := "W" }) "plan_x" ⟨5, 0⟩ = some { name := "W" } :=
  malformed_payload_applies_no_payment.1 (some { name := "W" }) "plan_x" ⟨5, 0⟩ (by decide)

/-- C2 counterexample: a user who registers (name + valid birth date) on
day 726538+100 = 726638 has the one-shot trial consumed at registration
(`trial_used = true`, `paid = false`); a forecast request later the very
same calendar day is denied — the trial does not entitle the user even on
the day it was granted, contradicting "entitled on exactly the grant day".
(Day 726638 is the rata-die ordinal of 1990-06-20; the birth date
12.03.1990 is neither in the future nor older than 100 years.) -/
theorem trial_day_entitlement_counterexample :
    save_user genT true none "Анна\n12.03.1990" ⟨726638, 100⟩ =
      (some { name := "Анна", birth := "12.03.1990", trial_used := true }, 1, some "T") ∧
    (forecast_handler genT
        (some { name := "Анна", birth := "12.03.1990", trial_used := true })
        ⟨726638, 200⟩).2.2 = none := by
  constructor <;> decide

/-- C2 amended: the trial is a one-shot forecast delivered inline at
registration and recorded by the `trial_used` flag; it never entitles the
user to a later forecast request — for every unpaid record (trial used or
not) and every date, the interactive forecast path delivers nothing. -/
theorem unpaid_user_never_receives_interactive_forecast
    (gen : String → String → String) (u : UserRec) (now : PyDateTime)
    (h : u.paid = false) : (forecast_handler gen (some u) now).2.2 = none := by
  simp only [forecast_handler, h]
  cases htr : u.trial_used <;> simp

/-- C2 witness: the amended theorem at a concrete unpaid record with the
trial already used. -/
theorem unpaid_user_never_receives_interactive_forecast_witness :
    (forecast_handler genT (some { name := "B", trial_used := true }) ⟨1, 2⟩).2.2 = none :=
  unpaid_user_never_receives_interactive_forecast genT { name := "B", trial_used := true } ⟨1, 2⟩ rfl

/-- The interactive forecast path delivers a forecast exactly for a paid
record whose expiry datetime is strictly in the future. -/
theorem interactive_allows_expiry (gen : String → String → String)
    (u : UserRec) (now : PyDateTime) :
    interactive_allows gen u now =
      (u.paid && (match u.expires with
                  | some e => !(dtLe e now)
                  | none => false)) := by
  simp only [interactive_allows, forecast_handler, paid_flow]
  cases hp : u.paid
  · cases htr : u.trial_used <;> cases he : u.expires <;> simp [he]
  · cases he : u.expires
    · simp
    · rename_i e
      by_cases hle : dtLe e now = true
      · simp [hle]
      · simp only [Bool.not_true, Bool.false_and, Bool.true_and, Bool.not_false,
          Bool.not_eq_true] at hle ⊢
        simp only [hle]
        by_cases hld : (u.last_forecast_date == some now.day) = true
        · simp only [hld, if_true]
          by_cases htv : pyTruthy u.cached_forecast = true
          · cases hcc : u.cached_forecast
            · rw [hcc] at htv
              simp [pyTruthy] at htv
            · rw [hcc] at htv
              simp [htv, hcc]
          · simp [htv]
        · simp only [Bool.not_eq_true] at hld
          simp [hld]

/-- The daily sweep delivers a forecast exactly for a paid record whose
expiry date (calendar day) is today or later. -/
theorem sweep_allows_expiry (gen : String → String → String)
    (u : UserRec) (now : PyDateTime) :
    sweep_allows gen u now =
      (u.paid && (match u.expires with
                  | some e => !(decide (e.day < now.day))
                  | none => false)) := by
  simp only [sweep_allows, daily_job_user]
  cases hp : u.paid
  · simp
  · cases he : u.expires
    · simp
    · rename_i e
      by_cases hlt : e.day < now.day <;> simp [hlt]

/-- C3 amended: the interactive path and the sweep do NOT share one
entitlement decision.  Whenever the interactive path allows, the sweep
allows too, but the two diverge exactly when a paid record's expiry
datetime lies on the current calendar day at or before the current moment:
the interactive handler compares full datetimes (`now >= expires` denies),
while the sweep only compares calendar dates (`expires.date() < today`
skips). -/
theorem interactive_and_sweep_divergence (gen : String → String → String)
    (u : UserRec) (now : PyDateTime) :
    (interactive_allows gen u now = true → sweep_allows gen u now = true) ∧
    (interactive_allows gen u now ≠ sweep_allows gen u now ↔
      u.paid = true ∧ ∃ e, u.expires = some e ∧ e.day = now.day ∧ e.tod ≤ now.tod) := by
  rw [interactive_allows_expiry gen u now, sweep_allows_expiry gen u now]
  cases hp : u.paid
  · simp
  · cases he : u.expires
    · simp
    · rename_i e
      simp only [Bool.true_and, true_and, ne_eq, Option.some.injEq, exists_eq_left']
      by_cases h1 : e.day < now.day <;> by_cases h3 : e.tod ≤ now.tod <;>
        by_cases h2 : e.day = now.day <;>
          simp [dtLe, h1, h2, h3]

/-- C3 counterexample: a paid record whose subscription expired at midnight
of the current day (expiry day 100, time 0) while the clock now reads day
100, time 500: the interactive handler denies (and would clear `paid`),
but the daily sweep still sends a forecast — same record, same date,
different decision. -/
theorem interactive_and_sweep_divergence_counterexample :
    interactive_allows genT { paid := true, expires := some ⟨100, 0⟩ } ⟨100, 500⟩ = false ∧
    sweep_allows genT { paid := true, expires := some ⟨100, 0⟩ } ⟨100, 500⟩ = true := by
  constructor <;> decide

/-- C3 witness: the implication half of the amended theorem at a concrete
paid record whose expiry is strictly in the future. -/
theorem interactive_and_sweep_divergence_witness :
    sweep_allows genT { paid := true, expires := some ⟨200, 0⟩ } ⟨100, 0⟩ = true :=
  (interactive_and_sweep_divergence genT { paid := true, expires := some ⟨200, 0⟩ } ⟨100, 0⟩).1
    (by decide)

/-- C4 counterexample: a paid user with today's forecast already cached —
the interactive request returns the cached text `"CACHED"` with zero
generator calls, but the daily sweep on the very same day ignores the
cache, invokes the generator (one more call) and sends different text, so
"identical text, at most one generation per day across both paths" fails. -/
theorem forecast_cache_bypassed_by_sweep_counterexample :
    forecast_handler genT
      (some { name := "N", birth := "B", trial_used := true, paid := true,
              expires := some ⟨200, 0⟩, last_forecast_date := some 100,
              cached_forecast := some "CACHED" }) ⟨100, 0⟩ =
      (some { name := "N", birth := "B", trial_used := true, paid := true,
              expires := some ⟨200, 0⟩, last_forecast_date := some 100,
              cached_forecast := some "CACHED" }, 0, some "CACHED") ∧
    daily_job_user genT
      { name := "N", birth := "B", trial_used := true, paid := true,
        expires := some ⟨200, 0⟩, last_forecast_date := some 100,
        cached_forecast := some "CACHED" } ⟨100, 0⟩ = (1, some "T") ∧
    ("T" : String) ≠ "CACHED" := by
  exact ⟨by decide, by decide, by decide⟩

/-- C4 amended: the per-day memoization holds on the interactive path
alone, and only for non-empty text — once an interactive request has
delivered a non-empty forecast text, every further interactive request at
any moment of the same calendar day that the handler still allows returns
the identical cached text with no further generator call and no further
state change.  (An empty generated text is cached but treated as absent by
the `if cached:` truthiness test, so it would be regenerated on each
request; and the daily sweep bypasses the cache entirely: whenever it
dispatches to a user it invokes the generator afresh.) -/
theorem interactive_forecast_memoized_daily :
    (∀ (gen : String → String → String) (u u1 : UserRec) (n1 : Nat) (t : String)
        (now now' : PyDateTime),
        forecast_handler gen (some u) now = (some u1, n1, some t) →
        t ≠ "" →
        now'.day = now.day →
        interactive_allows gen u1 now' = true →
        forecast_handler gen (some u1) now' = (some u1, 0, some t)) ∧
    (∀ (gen : String → String → String) (u : UserRec) (now : PyDateTime),
        sweep_allows gen u now = true →
        daily_job_user gen u now = (1, some (gen u.name u.birth))) := by
  constructor
  · intro gen u u1 n1 t now now' h ht hday hall
    have htb : (t == "") = false := beq_eq_false_iff_ne.mpr ht
    cases hp : u.paid
    · cases htr : u.trial_used <;> simp [forecast_handler, hp, htr] at h
    · cases he : u.expires
      · simp [forecast_handler, paid_flow, hp, he] at h
      · rename_i e
        by_cases hle : dtLe e now = true
        · simp [forecast_handler, paid_flow, hp, he, hle] at h
        · by_cases hld : (u.last_forecast_date == some now.day) = true
          · by_cases htv : pyTruthy u.cached_forecast = true
            · simp [forecast_handler, paid_flow, hp, he, hle, hld, htv] at h
              obtain ⟨hu, _, hc⟩ := h
              subst hu
              rw [interactive_allows_expiry] at hall
              simp only [hp, he, Bool.true_and, Bool.not_eq_true'] at hall
              rw [hc] at htv
              simp [forecast_handler, paid_flow, hp, he, hall, hday, hld, htv, hc]
            · simp [forecast_handler, paid_flow, hp, he, hle, hld, htv] at h
              obtain ⟨hu, _, hc⟩ := h
              subst hu
              subst hc
              rw [interactive_allows_expiry] at hall
              simp only [hp, he, Bool.true_and, Bool.not_eq_true'] at hall
              simp [forecast_handler, paid_flow, hp, he, hall, hday, hld, pyTruthy, htb]
          · simp [forecast_handler, paid_flow, hp, he, hle, hld] at h
            obtain ⟨hu, _, hc⟩ := h
            subst hu
            subst hc
            rw [interactive_allows_expiry] at hall
            simp only [hp, he, Bool.true_and, Bool.not_eq_true'] at hall
            simp [forecast_handler, paid_flow, hp, he, hall, hday, pyTruthy, htb]
  · intro gen u now h
    cases hp : u.paid
    · simp [sweep_allows, daily_job_user, hp] at h
    · cases he : u.expires
      · simp [sweep_allows, daily_job_user, hp, he] at h
      · rename_i e
        by_cases hlt : e.day < now.day
        · simp [sweep_allows, daily_job_user, hp, he, hlt] at h
        · simp [daily_job_user, hp, he, hlt]

/-- C4 witness: the interactive-memoization half applied to a concrete
paid user right after a first interactive request at time (150, 0) filled
the cache with the non-empty text "T"; a further request later the same
day, at time (150, 5), returns the cached text with zero generator calls. -/
theorem interactive_forecast_memoized_daily_witness :
    forecast_handler genT
      (some { name := "N", birth := "B", trial_used := true, paid := true,
              expires := some ⟨300, 0⟩, last_forecast_date := some 150,
              cached_forecast := some "T" }) ⟨150, 5⟩ =
      (some { name := "N", birth := "B", trial_used := true, paid := true,
              expires := some ⟨300, 0⟩, last_forecast_date := some 150,
              cached_forecast := some "T" }, 0, some "T") :=
  interactive_forecast_memoized_daily.1 genT
    { name := "N", birth := "B", trial_used := true, paid := true,
      expires := some ⟨300, 0⟩ }
    { name := "N", birth := "B", trial_used := true, paid := true,
      expires := some ⟨300, 0⟩, last_forecast_date := some 150,
      cached_forecast := some "T" }
    1 "T" ⟨150, 0⟩ ⟨150, 5⟩ (by decide) (by decide) rfl (by decide)

/-- C6 counterexample: a message that is not even two lines long ("hi"),
sent by a paid user with an unexpired subscription, never reaches the
birth-date validation: the handler runs the forecast flow, invokes the
generator once and mutates the record (cache fields written) — "no state
mutated, no forecast generated" fails for such input messages. -/
theorem paid_user_malformed_message_counterexample :
    (save_user genT true
        (some { name := "N", birth := "B", trial_used := true, paid := true,
                expires := some ⟨999, 0⟩ }) "hi" ⟨100, 0⟩).2.1 = 1 ∧
    (save_user genT true
        (some { name := "N", birth := "B", trial_used := true, paid := true,
                expires := some ⟨999, 0⟩ }) "hi" ⟨100, 0⟩).1 ≠
      some { name := "N", birth := "B", trial_used := true, paid := true,
             expires := some ⟨999, 0⟩ } := by
  constructor <;> decide

/-- C6 amended: restricted to users that are not in the paid branch (no
record yet, or record with `paid` unset), the claim holds: a message with
fewer than two lines, or whose second line fails birth-date validation
(malformed, future, or older than 100 years), leaves the ledger entry
exactly as it was, grants no trial and generates no forecast.  The four
closing conjuncts check the spec's concrete rejected dates against a fixed
clock (day 726638 = 1990-06-20 in rata-die ordinal). -/
theorem invalid_registration_input_mutates_nothing :
    (∀ (gen : String → String → String) (cs : Bool) (u0 : Option UserRec)
        (text : String) (now : PyDateTime),
        (∀ u, u0 = some u → u.paid = false) →
        ((splitOnChar '\n' text.data).length < 2 ∨
          is_valid_birth_date ⟨pyTrim ((splitOnChar '\n' text.data).getD 1 [])⟩ now = false) →
        save_user gen cs u0 text now = (u0, 0, none)) ∧
    is_valid_birth_date "31.13.2050" ⟨726638, 0⟩ = false ∧
    is_valid_birth_date "not-a-date" ⟨726638, 0⟩ = false ∧
    is_valid_birth_date "01.01.2050" ⟨726638, 0⟩ = false ∧
    is_valid_birth_date "01.01.1875" ⟨726638, 0⟩ = false := by
  refine ⟨?_, by decide, by decide, by decide, by decide⟩
  intro gen cs u0 text now hpaid hbad
  by_cases hs : startsWithSlash text = true
  · simp [save_user, hs]
  · by_cases hcs : cs = true
    · cases u0 with
      | none =>
        rcases hbad with hlen | hbd
        · simp [save_user, hs, hcs, hlen]
        · by_cases hlen : (splitOnChar '\n' text.data).length < 2
          · simp [save_user, hs, hcs, hlen]
          · simp [save_user, hs, hcs, hlen]
            simpa using hbd
      | some u =>
        have hpu : u.paid = false := hpaid u rfl
        cases htr : u.trial_used
        · rcases hbad with hlen | hbd
          · simp [save_user, hs, hcs, hpu, htr, hlen]
          · by_cases hlen : (splitOnChar '\n' text.data).length < 2
            · simp [save_user, hs, hcs, hpu, htr, hlen]
            · simp [save_user, hs, hcs, hpu, htr, hlen]
              simpa using hbd
        · simp [save_user, hs, hcs, hpu, htr]
    · simp [save_user, hs, hcs]

/-- C6 witness: the main conjunct applied to a fresh user sending the
one-line message "hi". -/
theorem invalid_registration_input_mutates_nothing_witness :
    save_user genT true none "hi" ⟨726638, 0⟩ = (none, 0, none) :=
  invalid_registration_input_mutates_nothing.1 genT true none "hi" ⟨726638, 0⟩
    (fun _ h => nomatch h) (Or.inl (by decide))

/-- A strict `datetime` inequality implies the non-strict one. -/
theorem dtLe_of_dtLt (a b : PyDateTime) (h : dtLt a b = true) : dtLe a b = true := by
  simp only [dtLt, dtLe, Bool.or_eq_true, Bool.and_eq_true, decide_eq_true_eq,
    beq_iff_eq] at h ⊢
  omega

/-- If `e < now` as datetimes then the Python `(e - now).days` is negative. -/
theorem tdDays_neg_of_dtLt (e now : PyDateTime) (h : dtLt e now = true) :
    tdDays e now < 0 := by
  simp only [dtLt, Bool.or_eq_true, Bool.and_eq_true, decide_eq_true_eq, beq_iff_eq] at h
  unfold tdDays
  split <;> omega

/-- C8 counterexample: merely asking for a forecast with an expired paid
subscription flips the persisted `paid` flag to `false` — deciding
entitlement is not pure with respect to the record. -/
theorem entitlement_check_purity_counterexample :
    (forecast_handler genT
        (some { trial_used := true, paid := true, expires := some ⟨50, 0⟩ }) ⟨60, 0⟩).1 ≠
      some { trial_used := true, paid := true, expires := some ⟨50, 0⟩ } ∧
    ((forecast_handler genT
        (some { trial_used := true, paid := true, expires := some ⟨50, 0⟩ }) ⟨60, 0⟩).1).map
      UserRec.paid = some false := by
  constructor <;> decide

/-- C8 amended: the entitlement check of the interactive handlers
(`/forecast` and `/rest`) leaves the record unchanged for every unpaid
record, but it is lazily stateful for paid records: when the stored expiry
datetime is strictly in the past, both handlers clear the `paid` flag and
persist the change as a side effect of the check (delivering a forecast
additionally updates the cache fields). -/
theorem entitlement_check_clears_paid_on_expiry (gen : String → String → String)
    (u : UserRec) (now : PyDateTime) :
    (u.paid = false →
      (forecast_handler gen (some u) now).1 = some u ∧
      rest_handler (some u) now = some u) ∧
    (∀ e, u.paid = true → u.expires = some e → dtLt e now = true →
      (forecast_handler gen (some u) now).1 = some { u with paid := false } ∧
      rest_handler (some u) now = some { u with paid := false }) := by
  constructor
  · intro hp
    constructor
    · cases htr : u.trial_used <;> simp [forecast_handler, hp, htr]
    · simp [rest_handler, hp]
  · intro e hp he hlt
    have hle := dtLe_of_dtLt e now hlt
    have hneg := tdDays_neg_of_dtLt e now hlt
    constructor
    · simp [forecast_handler, paid_flow, hp, he, hle]
    · have hn : ¬ (0 ≤ tdDays e now) := by omega
      simp [rest_handler, hp, he, hn]

/-- C8 witness: the expired-subscription half applied to a concrete paid
record via the `/rest` handler. -/
theorem entitlement_check_clears_paid_on_expiry_witness :
    rest_handler (some { paid := true, expires := some ⟨50, 0⟩ }) ⟨60, 0⟩ =
      some { paid := false, expires := some ⟨50, 0⟩ } := by
  have h := (entitlement_check_clears_paid_on_expiry genT
      { paid := true, expires := some ⟨50, 0⟩ } ⟨60, 0⟩).2 ⟨50, 0⟩ rfl rfl (by decide)
  exact h.2
